import Mathlib

/-!
Verification of the walmart_extension context-attestation code.

The development shallowly embeds the two relevant source files:

* `src/walmart/background.js` — sensor collection, consistency scoring,
  context hashing (SHA-256 over `JSON.stringify`), token requests and the
  `VERIFY_CONTEXT` message handler;
* `src/unnamed/part_000` (the content script) — threshold gating,
  the start/stop verification loop, failure reporting and the
  `window.fetch` interceptor.

JavaScript numbers are modelled as `ℚ` (all scores in the code are exact
small rationals) and timestamps as `ℤ`.  JavaScript objects appearing as
header maps are modelled as association lists with first-occurrence
lookup and in-place update, matching object-key semantics for the
duplicate-free objects the code manipulates.
-/

/-! ### JSON values and `JSON.stringify`

`generateContextHash` serializes the context object with `JSON.stringify`,
which emits object fields in insertion order.  JavaScript objects are
ordered field lists, so the model keeps the field list.  String escaping is
omitted: every string the code serializes is escape-free ASCII. -/

inductive Json where
  | jnull : Json
  | jnum : Int → Json
  | jstr : String → Json
  | jarr : List Json → Json
  | jobj : List (String × Json) → Json

mutual

/-- Model of `JSON.stringify` on the values above: integers print in
decimal, object fields print in list (insertion) order. -/
def Json.stringify : Json → String
  | .jnull => "null"
  | .jnum n => toString n
  | .jstr s => "\"" ++ s ++ "\""
  | .jarr xs => "[" ++ stringifyArr xs ++ "]"
  | .jobj fs => "\x7b" ++ stringifyFields fs ++ "\x7d"

def stringifyArr : List Json → String
  | [] => ""
  | [x] => Json.stringify x
  | x :: y :: rest => Json.stringify x ++ "," ++ stringifyArr (y :: rest)

def stringifyFields : List (String × Json) → String
  | [] => ""
  | [(k, v)] => "\"" ++ k ++ "\":" ++ Json.stringify v
  | (k, v) :: y :: rest =>
      "\"" ++ k ++ "\":" ++ Json.stringify v ++ "," ++ stringifyFields (y :: rest)

end

/-! ### SHA-256

`crypto.subtle.digest('SHA-256', …)` is the browser primitive used by
`generateContextHash`; it is embedded here as the standard FIPS 180-4
SHA-256 over byte lists, with 32-bit words as `Nat` reduced mod `2^32`. -/

/-- Reduce a natural number to a 32-bit word. -/
def w32 (n : Nat) : Nat := n % 4294967296

/-- Right rotation of a 32-bit word. -/
def rotr (n x : Nat) : Nat := w32 ((x >>> n) ||| (x <<< (32 - n)))

def bsig0 (x : Nat) : Nat := rotr 2 x ^^^ rotr 13 x ^^^ rotr 22 x

def bsig1 (x : Nat) : Nat := rotr 6 x ^^^ rotr 11 x ^^^ rotr 25 x

def ssig0 (x : Nat) : Nat := rotr 7 x ^^^ rotr 18 x ^^^ (x >>> 3)

def ssig1 (x : Nat) : Nat := rotr 17 x ^^^ rotr 19 x ^^^ (x >>> 10)

/-- The 64 SHA-256 round constants, in rows of eight. -/
def K256 : List Nat :=
  List.flatten
    [[0x428a2f98, 0x71374491, 0xb5c0fbcf, 0xe9b5dba5, 0x3956c25b, 0x59f111f1, 0x923f82a4, 0xab1c5ed5],
     [0xd807aa98, 0x12835b01, 0x243185be, 0x550c7dc3, 0x72be5d74, 0x80deb1fe, 0x9bdc06a7, 0xc19bf174],
     [0xe49b69c1, 0xefbe4786, 0x0fc19dc6, 0x240ca1cc, 0x2de92c6f, 0x4a7484aa, 0x5cb0a9dc, 0x76f988da],
     [0x983e5152, 0xa831c66d, 0xb00327c8, 0xbf597fc7, 0xc6e00bf3, 0xd5a79147, 0x06ca6351, 0x14292967],
     [0x27b70a85, 0x2e1b2138, 0x4d2c6dfc, 0x53380d13, 0x650a7354, 0x766a0abb, 0x81c2c92e, 0x92722c85],
     [0xa2bfe8a1, 0xa81a664b, 0xc24b8b70, 0xc76c51a3, 0xd192e819, 0xd6990624, 0xf40e3585, 0x106aa070],
     [0x19a4c116, 0x1e376c08, 0x2748774c, 0x34b0bcb5, 0x391c0cb3, 0x4ed8aa4a, 0x5b9cca4f, 0x682e6ff3],
     [0x748f82ee, 0x78a5636f, 0x84c87814, 0x8cc70208, 0x90befffa, 0xa4506ceb, 0xbef9a3f7, 0xc67178f2]]

/-- SHA-256 initial hash state. -/
def H256 : List Nat :=
  [0x6a09e667, 0xbb67ae85, 0x3c6ef372, 0xa54ff53a, 0x510e527f, 0x9b05688c, 0x1f83d9ab, 0x5be0cd19]

/-- Message padding: append `0x80`, zeros, then the bit length as eight
big-endian bytes, so the total length becomes a multiple of 64. -/
def sha256pad (msg : List Nat) : List Nat :=
  let len := msg.length
  let zeros := (119 - (len % 64)) % 64
  let bitLen := len * 8
  msg ++ [128] ++ List.replicate zeros 0 ++
    (List.range 8).map (fun i => (bitLen >>> (8 * (7 - i))) % 256)

/-- Big-endian 32-bit words from a byte list. -/
def toWords : List Nat → List Nat
  | b0 :: b1 :: b2 :: b3 :: rest =>
      (((b0 * 256 + b1) * 256 + b2) * 256 + b3) :: toWords rest
  | _ => []

def nthW (w : List Nat) (i : Nat) : Nat := w.getD i 0

/-- Extend the 16 message words by `n` further schedule words. -/
def extendW : List Nat → Nat → List Nat
  | w, 0 => w
  | w, n + 1 =>
      let i := w.length
      extendW
        (w ++ [w32 (nthW w (i - 16) + ssig0 (nthW w (i - 15)) +
                    nthW w (i - 7) + ssig1 (nthW w (i - 2)))]) n

/-- One SHA-256 round on the eight-word working state. -/
def compressRound (st : List Nat) (kw : Nat × Nat) : List Nat :=
  match st with
  | [a, b, c, d, e, f, g, h] =>
      let t1 := w32 (h + bsig1 e + ((e &&& f) ^^^ ((e ^^^ 4294967295) &&& g)) + kw.1 + kw.2)
      let t2 := w32 (bsig0 a + ((a &&& b) ^^^ (a &&& c) ^^^ (b &&& c)))
      [w32 (t1 + t2), a, b, c, w32 (d + t1), e, f, g]
  | other => other

/-- Compress one 64-byte block into the hash state. -/
def sha256compress (h : List Nat) (block : List Nat) : List Nat :=
  let w := extendW (toWords block) 48
  let st := (K256.zip w).foldl compressRound h
  (h.zip st).map (fun p => w32 (p.1 + p.2))

/-- Fold the compression function over the 64-byte blocks; the first
argument counts the blocks of the (already padded) message. -/
def sha256run : Nat → List Nat → List Nat → List Nat
  | 0, h, _ => h
  | n + 1, h, msg => sha256run n (sha256compress h (msg.take 64)) (msg.drop 64)

/-- SHA-256 digest (32 bytes) of a byte list. -/
def sha256 (msg : List Nat) : List Nat :=
  let padded := sha256pad msg
  (sha256run (padded.length / 64) H256 padded).foldr
    (fun wd acc => (wd >>> 24) % 256 :: (wd >>> 16) % 256 :: (wd >>> 8) % 256 :: wd % 256 :: acc) []

/-- Lower-case hex digit, as produced by `b.toString(16)`. -/
def hexChar (n : Nat) : Char := if n < 10 then Char.ofNat (48 + n) else Char.ofNat (87 + n)

/-- Model of `hashArray.map(b => b.toString(16).padStart(2, '0')).join('')`. -/
def bytesToHex (bs : List Nat) : String :=
  String.mk (bs.foldr (fun b acc => hexChar (b / 16) :: hexChar (b % 16) :: acc) [])

/-- Model of `TextEncoder().encode` restricted to the ASCII strings the
code serializes (UTF-8 agrees with the code-point bytes there). -/
def strToBytes (s : String) : List Nat := s.data.map Char.toNat

/-- Embedding of `generateContextHash` (background.js, lines 164-172):
SHA-256 over the `JSON.stringify` serialization of the context object,
rendered as lower-case hex. -/
def generateContextHash (contextData : Json) : String :=
  bytesToHex (sha256 (strToBytes (Json.stringify contextData)))

/-! ### String helpers mirroring the JavaScript string operations -/

/-- Does `pat` occur at the head of `s`? -/
def headMatches : List Char → List Char → Bool
  | _, [] => true
  | [], _ :: _ => false
  | c :: cs, p :: ps => c == p && headMatches cs ps

/-- Does `pat` occur anywhere in `s`? -/
def containsSub : List Char → List Char → Bool
  | [], pat => pat.isEmpty
  | c :: rest, pat => headMatches (c :: rest) pat || containsSub rest pat

/-- Model of `String.prototype.includes`. -/
def jsIncludes (s pat : String) : Bool := containsSub s.data pat.data

/-- Remove the first occurrence of `pat` (if any) from `s`:
`String.prototype.replace(pat, '')` with a string pattern replaces only
the first occurrence. -/
def removeFirstOcc : List Char → List Char → List Char
  | [], _ => []
  | c :: rest, pat =>
      if headMatches (c :: rest) pat then (c :: rest).drop pat.length
      else c :: removeFirstOcc rest pat

def jsReplaceEmpty (s pat : String) : String := String.mk (removeFirstOcc s.data pat.data)

/-- Everything after the first `://` of a URL (empty if the separator is
absent, where the browser URL parser would throw instead). -/
def dropThroughScheme : List Char → List Char
  | [] => []
  | c :: rest =>
      if headMatches (c :: rest) "://".data then (c :: rest).drop 3
      else dropThroughScheme rest

/-- Model of `new URL(url).hostname` for the http(s) URLs the extension
handles: the text after `://` up to the first `/`, `:`, `?` or `#`. -/
def hostnameOf (url : String) : String :=
  String.mk ((dropThroughScheme url.data).takeWhile
    (fun c => c != '/' && c != ':' && c != '?' && c != '#'))

/-! ### background.js — site registry and API endpoint lookup -/

/-- Embedding of the `API_ENDPOINTS` table (background.js, lines 4-11),
in object-key insertion order. -/
def API_ENDPOINTS : List (String × String) :=
  [("walmart.com", "https://api.walmart.com/secure-context"),
   ("amazon.com", "https://api.amazon.com/secure-context"),
   ("target.com", "https://api.target.com/secure-context"),
   ("bestbuy.com", "https://api.bestbuy.com/secure-context"),
   ("ebay.com", "https://api.ebay.com/secure-context"),
   ("costco.com", "https://api.costco.com/secure-context")]

/-- Embedding of `getApiEndpoint` (background.js, lines 14-18): strip the
first `www.` from the hostname, then return the endpoint of the first
registry key the domain contains. -/
def getApiEndpoint (url : String) : Option String :=
  let domain := jsReplaceEmpty (hostnameOf url) "www."
  (API_ENDPOINTS.find? (fun p => jsIncludes domain p.1)).map (fun p => p.2)

/-! ### background.js — sensor collection and consistency scoring

Timestamps are `ℤ` milliseconds; the geolocation reading may lack a
timestamp (`Option`), which is exactly what `getGeolocationData`
produces — it resolves `{lat, lng, accuracy}` with no `timestamp` key. -/

structure GeoLocation where
  lat : ℚ
  lng : ℚ
  accuracy : ℚ
  timestamp : Option Int
deriving DecidableEq

structure WifiFingerprint where
  nearby_networks : List String
  connection_strength : ℚ
  timestamp : Int
deriving DecidableEq

structure MotionSignature where
  acceleration : ℚ × ℚ × ℚ
  rotation : ℚ × ℚ × ℚ
  timestamp : Int
deriving DecidableEq

structure PosTerminal where
  terminal_id : Option String
  signal_strength : ℚ
  timestamp : Int
deriving DecidableEq

/-- The context object assembled by `collectContextData`
(background.js, lines 50-56), fields as in the source. -/
structure ContextData where
  location : GeoLocation
  wifi_fingerprint : WifiFingerprint
  motion_signature : MotionSignature
  pos_terminal : PosTerminal
  timestamp : Int
deriving DecidableEq

/-- The position object handed to the geolocation success callback. -/
structure GeoPosition where
  lat : ℚ
  lng : ℚ
  accuracy : ℚ
deriving DecidableEq

/-- Embedding of `getGeolocationData` (background.js, lines 72-86): the
resolved reading carries `lat`, `lng` and `accuracy` only — note the
absent `timestamp` field. -/
def getGeolocationData (p : GeoPosition) : GeoLocation :=
  { lat := p.lat, lng := p.lng, accuracy := p.accuracy, timestamp := none }

/-- Embedding of `getWiFiData` (background.js, lines 89-97); `now` is the
`Date.now()` reading taken inside the mock. -/
def getWiFiData (now : Int) : WifiFingerprint :=
  { nearby_networks := [], connection_strength := 0, timestamp := now }

/-- Embedding of `getMotionSignature` (background.js, lines 100-110). -/
def getMotionSignature (now : Int) : MotionSignature :=
  { acceleration := (0, 0, 0), rotation := (0, 0, 0), timestamp := now }

/-- Embedding of `getPOSTerminalBeacon` (background.js, lines 113-121). -/
def getPOSTerminalBeacon (now : Int) : PosTerminal :=
  { terminal_id := none, signal_strength := 0, timestamp := now }

/-- Embedding of the context assembly in `collectContextData`
(background.js, lines 41-69), parameterized by the four sensor results
and the `Date.now()` readings the mocks and the assembly take. -/
def collectContextData (p : GeoPosition) (tWifi tMotion tPos tNow : Int) : ContextData :=
  { location := getGeolocationData p,
    wifi_fingerprint := getWiFiData tWifi,
    motion_signature := getMotionSignature tMotion,
    pos_terminal := getPOSTerminalBeacon tPos,
    timestamp := tNow }

/-- Model of `Math.max(...ts)` for a nonempty list. -/
def listMax : List Int → Int
  | [] => 0
  | x :: xs => xs.foldl max x

/-- Model of `Math.min(...ts)` for a nonempty list. -/
def listMin : List Int → Int
  | [] => 0
  | x :: xs => xs.foldl min x

/-- Embedding of `evaluateLocationConsistency` (background.js, lines
138-140). -/
def evaluateLocationConsistency (location : GeoLocation) : ℚ :=
  if location.accuracy ≤ 20 then 1 else 1/2

/-- Embedding of `evaluateTemporalConsistency` (background.js, lines
142-152).  The timestamp list is `[contextData.timestamp,
location.timestamp, wifi_fingerprint.timestamp,
motion_signature.timestamp]` — the POS-terminal timestamp is not read.
When the location reading has no `timestamp` key the JavaScript value is
`undefined`, `Math.max` yields `NaN`, and `NaN < 5000` is false, so the
function returns 0.5; the `none` branch encodes that. -/
def evaluateTemporalConsistency (contextData : ContextData) : ℚ :=
  match contextData.location.timestamp with
  | none => 1/2
  | some lts =>
      let ts : List Int := [contextData.timestamp, lts,
        contextData.wifi_fingerprint.timestamp, contextData.motion_signature.timestamp]
      if listMax ts - listMin ts < 5000 then 1 else 1/2

/-- Embedding of `evaluateMotionConsistency` (background.js, lines
154-157): the placeholder returns 1.0. -/
def evaluateMotionConsistency (_motionData : MotionSignature) : ℚ := 1

/-- Embedding of `evaluateNetworkConsistency` (background.js, lines
159-162): the placeholder returns 1.0. -/
def evaluateNetworkConsistency (_wifiData : WifiFingerprint) : ℚ := 1

/-- Embedding of `computeConsistencyScore` (background.js, lines
124-135): the sum of the four sub-scores divided by their count. -/
def computeConsistencyScore (contextData : ContextData) : ℚ :=
  (evaluateLocationConsistency contextData.location
    + evaluateTemporalConsistency contextData
    + evaluateMotionConsistency contextData.motion_signature
    + evaluateNetworkConsistency contextData.wifi_fingerprint) / 4

/-! ### background.js — token request and the VERIFY_CONTEXT handler -/

/-- The device key pair; the key material itself is opaque to the claims
verified here. -/
structure DeviceKeyPair where
  publicKey : String
  privateKey : String
deriving DecidableEq

/-- The `{token, consistencyScore}` JSON body returned by the issuance
endpoint (and the degraded `{token: null, consistencyScore: 0}` value). -/
structure TokenMsg where
  token : Option String
  consistencyScore : ℚ
deriving DecidableEq

/-- Outcome of the `fetch` POST to `issue-token`, keyed by the request
URL: `ok` mirrors `response.ok`, `body` mirrors `response.json()`. -/
structure FetchReply where
  ok : Bool
  body : TokenMsg

/-- Embedding of `requestZKPToken` (background.js, lines 175-205).  The
ambient `deviceKeyPair` and the network are passed explicitly; signing
and key export are external crypto calls that do not affect the control
flow modelled here.  Thrown errors are `Except.error` carrying the
thrown message. -/
def requestZKPToken (deviceKeyPair : Option DeviceKeyPair) (fetchReply : String → FetchReply)
    (_contextHash : String) (_consistencyScore : ℚ) (siteUrl : String) :
    Except String TokenMsg :=
  match deviceKeyPair with
  | none => Except.error "Device key pair not initialized"
  | some _ =>
      match getApiEndpoint siteUrl with
      | none => Except.error "Unsupported shopping site"
      | some apiEndpoint =>
          let response := fetchReply (apiEndpoint ++ "/issue-token")
          if response.ok then Except.ok response.body
          else Except.error "Failed to obtain ZKP token"

/-- The `sendResponse` payload of the VERIFY_CONTEXT handler. -/
structure VCResponse where
  success : Bool
  token : Option TokenMsg
  error : Option String
deriving DecidableEq

/-- Embedding of the `VERIFY_CONTEXT` branch of the
`chrome.runtime.onMessage` listener (background.js, lines 232-253).
`collected` is the settled result of `collectContextData` — `(contextHash,
consistencyScore)` on resolution, the error message on rejection.  The
inner try/catch converts exactly the error whose message is
`Unsupported shopping site` into a degraded success; every other error is
re-thrown into the outer `.catch`, which responds with failure. -/
def handleVerifyContext (deviceKeyPair : Option DeviceKeyPair) (fetchReply : String → FetchReply)
    (siteUrl : String) (collected : Except String (String × ℚ)) : VCResponse :=
  match collected with
  | Except.error e => { success := false, token := none, error := some e }
  | Except.ok (contextHash, consistencyScore) =>
      match requestZKPToken deviceKeyPair fetchReply contextHash consistencyScore siteUrl with
      | Except.ok token => { success := true, token := some token, error := none }
      | Except.error msg =>
          if msg = "Unsupported shopping site" then
            { success := true, token := some { token := none, consistencyScore := 0 }, error := none }
          else
            { success := false, token := none, error := some msg }

/-! ### Content script — site table and current-site lookup -/

/-- One entry of the `SUPPORTED_SITES` table. -/
structure SiteCfg where
  apiPattern : String
  storePattern : String
deriving DecidableEq

/-- Embedding of `SUPPORTED_SITES` (content script, lines 4-29), in
object-key insertion order. -/
def SUPPORTED_SITES : List (String × SiteCfg) :=
  [("walmart.com", { apiPattern := "api.walmart.com", storePattern := "/store/" }),
   ("amazon.com", { apiPattern := "api.amazon.com", storePattern := "/dp/" }),
   ("target.com", { apiPattern := "api.target.com", storePattern := "/p/" }),
   ("bestbuy.com", { apiPattern := "api.bestbuy.com", storePattern := "/products/" }),
   ("ebay.com", { apiPattern := "api.ebay.com", storePattern := "/itm/" }),
   ("costco.com", { apiPattern := "api.costco.com", storePattern := "/product/" })]

/-- Embedding of `getCurrentSite` (content script, lines 32-35):
`window.location.hostname` is passed explicitly; the first `www.` is
stripped and the first table entry whose domain the result contains is
returned as the `[domain, config]` pair. -/
def getCurrentSite (hostname : String) : Option (String × SiteCfg) :=
  let currentDomain := jsReplaceEmpty hostname "www."
  SUPPORTED_SITES.find? (fun p => jsIncludes currentDomain p.1)

/-- Embedding of `consistencyThreshold` (content script, line 40). -/
def consistencyThreshold : ℚ := 7/10

/-! ### Content script — verification loop state and events

The mutable module state is `activeToken` and `verificationInterval`;
the script-injection side effects (`injectTokenToPage`,
`notifyPageContextStatus`, `handleVerificationFailure`) are modelled as a
list of emitted page events. -/

inductive PageEvent where
  | tokenInjected (token : TokenMsg)
  | statusChanged (status : String) (consistencyScore : ℚ)
  | verificationFailed (reason : String) (consistencyScore : ℚ)
deriving DecidableEq

structure CSState where
  activeToken : Option TokenMsg
  verificationInterval : Bool
deriving DecidableEq

/-- Embedding of `handleVerificationFailure` (content script, lines
122-138).  The reason string is chosen by JavaScript truthiness of the
`consistencyScore` argument (default 0): a nonzero score reads
`Insufficient consistency score`, a zero (or absent) score reads
`Verification error`. -/
def handleVerificationFailure (consistencyScore : ℚ) (s : CSState) :
    CSState × List PageEvent :=
  ({ s with activeToken := none },
   [PageEvent.verificationFailed
      (if consistencyScore ≠ 0 then "Insufficient consistency score" else "Verification error")
      consistencyScore])

/-- Embedding of `verifyContext` (content script, lines 67-87) from the
point where the `VERIFY_CONTEXT` message settles.  `result` is the
settled `sendMessage` promise.  On a response with a token, the gate is
`response.success && response.token.consistencyScore >=
consistencyThreshold`; on failure the score handed to
`handleVerificationFailure` is `response.token?.consistencyScore`
(defaulting to 0 when the token is absent).  A successful response with
no token at all would throw on the property access and land in the catch
(score 0), the same result as the short-circuited else branch. -/
def verifyContext (result : Except String VCResponse) (s : CSState) :
    CSState × List PageEvent :=
  match result with
  | Except.error _ => handleVerificationFailure 0 s
  | Except.ok response =>
      match response.token with
      | none => handleVerificationFailure 0 s
      | some token =>
          if response.success = true ∧ consistencyThreshold ≤ token.consistencyScore then
            ({ s with activeToken := some token },
             [PageEvent.tokenInjected token,
              PageEvent.statusChanged "active" token.consistencyScore])
          else
            handleVerificationFailure token.consistencyScore s

/-- Embedding of `startContextVerification` (content script, lines
43-54): the interval is (re)armed and `verifyContext` is invoked — its
message is in flight, so its effects appear when the reply settles
(a separate `resolve` action in the trace model below). -/
def startContextVerification (s : CSState) : CSState × List PageEvent :=
  ({ s with verificationInterval := true }, [])

/-- Embedding of `stopContextVerification` (content script, lines
57-64): clear the interval, null the active token, notify `inactive`. -/
def stopContextVerification (_s : CSState) : CSState × List PageEvent :=
  ({ activeToken := none, verificationInterval := false },
   [PageEvent.statusChanged "inactive" 0])

/-- The observable actions of the single-threaded content script:
`NAVIGATION_CHANGE` messages and the settling of an outstanding
`VERIFY_CONTEXT` reply (the `await` continuation of `verifyContext`). -/
inductive CSAction where
  | navStart
  | navStop
  | resolve (result : Except String VCResponse)

def csStep (s : CSState) : CSAction → CSState × List PageEvent
  | CSAction.navStart => startContextVerification s
  | CSAction.navStop => stopContextVerification s
  | CSAction.resolve r => verifyContext r s

/-- Run a sequence of actions, accumulating the emitted page events. -/
def runTrace (s : CSState) : List CSAction → CSState × List PageEvent
  | [] => (s, [])
  | a :: rest =>
      let step := csStep s a
      let tail := runTrace step.1 rest
      (tail.1, step.2 ++ tail.2)

/-! ### Content script — the `window.fetch` interceptor

Request headers are a JavaScript object: an ordered, duplicate-free
key-value map.  `jsGetProp` is property lookup, `jsSetProp` is property
assignment (update in place if present, append otherwise).  A header
value may be `null` (the token field of a degraded token), hence
`Option String` values. -/

def jsGetProp (hs : List (String × Option String)) (k : String) : Option (Option String) :=
  (hs.find? (fun p => p.1 == k)).map (fun p => p.2)

def jsSetProp : List (String × Option String) → String → Option String →
    List (String × Option String)
  | [], k, v => [(k, v)]
  | (k0, v0) :: rest, k, v =>
      if k0 = k then (k, v) :: rest else (k0, v0) :: jsSetProp rest k v

/-- The second `fetch` argument (`RequestInit`), reduced to the one
field the interceptor touches. -/
structure RequestInit where
  headers : Option (List (String × Option String))
deriving DecidableEq

/-- The `fetch` argument pair: `args[0]` (a URL string here) and the
optional `args[1]`. -/
structure FetchArgs where
  url : String
  init : Option RequestInit
deriving DecidableEq

/-- The header object of a call, as the interceptor reads it:
`(args[1] || {}).headers || {}`. -/
def headersOf (args : FetchArgs) : List (String × Option String) :=
  match args.init with
  | none => []
  | some r => r.headers.getD []

/-- Embedding of the `window.fetch` wrapper (content script, lines
152-170), as the transformation it applies to the call arguments before
delegating to the original `fetch`.  When the current site matches and
the URL contains its `apiPattern`, `args[1]` is materialized and its
headers object is materialized; the three attestation headers are
assigned only when `activeToken` is set. -/
def fetchWrapper (hostname : String) (activeToken : Option TokenMsg)
    (args : FetchArgs) : FetchArgs :=
  match getCurrentSite hostname with
  | none => args
  | some currentSite =>
      if jsIncludes args.url currentSite.2.apiPattern then
        let headers := headersOf args
        let headers :=
          match activeToken with
          | none => headers
          | some t =>
              jsSetProp
                (jsSetProp
                  (jsSetProp headers "X-Secure-Context-Token" t.token)
                  "X-Context-Consistency-Score" (some (toString t.consistencyScore)))
                "X-Shopping-Site" (some currentSite.1)
        { url := args.url, init := some { headers := some headers } }
      else args

/-- Modelled from the spec wording for comparison with
`evaluateTemporalConsistency` (claim C4): the timestamp spread across
ALL of the snapshot's readings — including the POS-terminal beacon
reading — together with the snapshot timestamp.  The location timestamp
defaults to the snapshot timestamp when absent, since the spec presumes
every reading carries one. -/
def specAllReadingsSpread (cd : ContextData) : Int :=
  let ts : List Int := [cd.timestamp, cd.location.timestamp.getD cd.timestamp,
    cd.wifi_fingerprint.timestamp, cd.motion_signature.timestamp, cd.pos_terminal.timestamp]
  listMax ts - listMin ts

/-! ## Helper lemmas -/

/-- FIPS 180-4 test vector, checking the SHA-256 embedding itself:
the digest of "abc". -/
theorem sha256_abc_vector :
    bytesToHex (sha256 (strToBytes "abc")) =
      "ba7816bf8f01cfea414140de5dae2223b00361a396177a9cb410ff61f20015ad" := by
  decide

theorem evaluateLocationConsistency_cases (l : GeoLocation) :
    evaluateLocationConsistency l = 1 ∨ evaluateLocationConsistency l = 1/2 := by
  unfold evaluateLocationConsistency
  split <;> simp

theorem evaluateTemporalConsistency_cases (cd : ContextData) :
    evaluateTemporalConsistency cd = 1 ∨ evaluateTemporalConsistency cd = 1/2 := by
  unfold evaluateTemporalConsistency
  rcases h : cd.location.timestamp with _ | lts <;> simp only [h]
  · simp
  · split <;> simp

theorem handleVerificationFailure_shape (q : ℚ) (s : CSState) :
    (handleVerificationFailure q s).1.activeToken = none ∧
    (handleVerificationFailure q s).2 =
      [PageEvent.verificationFailed
        (if q ≠ 0 then "Insufficient consistency score" else "Verification error") q] :=
  ⟨rfl, rfl⟩

theorem listMax4_choice (a b c d : Int) :
    listMax [a, b, c, d] = a ∨ listMax [a, b, c, d] = b ∨
    listMax [a, b, c, d] = c ∨ listMax [a, b, c, d] = d := by
  simp only [listMax, List.foldl]
  rcases max_choice (max (max a b) c) d with h3 | h3
  · rw [h3]
    rcases max_choice (max a b) c with h2 | h2
    · rw [h2]
      rcases max_choice a b with h1 | h1
      · rw [h1]; tauto
      · rw [h1]; tauto
    · rw [h2]; tauto
  · rw [h3]; tauto

theorem listMin4_choice (a b c d : Int) :
    listMin [a, b, c, d] = a ∨ listMin [a, b, c, d] = b ∨
    listMin [a, b, c, d] = c ∨ listMin [a, b, c, d] = d := by
  simp only [listMin, List.foldl]
  rcases min_choice (min (min a b) c) d with h3 | h3
  · rw [h3]
    rcases min_choice (min a b) c with h2 | h2
    · rw [h2]
      rcases min_choice a b with h1 | h1
      · rw [h1]; tauto
      · rw [h1]; tauto
    · rw [h2]; tauto
  · rw [h3]; tauto

theorem jsGetProp_jsSetProp (hs : List (String × Option String)) (k : String)
    (v : Option String) (k2 : String) :
    jsGetProp (jsSetProp hs k v) k2 = if k2 = k then some v else jsGetProp hs k2 := by
  induction hs with
  | nil =>
      by_cases h : k2 = k
      · subst h; simp [jsSetProp, jsGetProp, List.find?]
      · have hb : (k == k2) = false := by
          rw [beq_eq_false_iff_ne]; exact Ne.symm h
        simp [jsSetProp, jsGetProp, List.find?, hb, h]
  | cons p rest ih =>
      obtain ⟨k0, v0⟩ := p
      simp only [jsSetProp]
      by_cases h0 : k0 = k
      · subst h0
        rw [if_pos rfl]
        by_cases h : k2 = k0
        · subst h; simp [jsGetProp, List.find?]
        · have hb : (k0 == k2) = false := by
            rw [beq_eq_false_iff_ne]; exact Ne.symm h
          simp [jsGetProp, List.find?, hb, h]
      · rw [if_neg h0]
        by_cases h : k2 = k0
        · have hkk : ¬ k2 = k := by rw [h]; exact h0
          have hb : (k0 == k2) = true := by rw [beq_iff_eq]; exact h.symm
          simp only [jsGetProp, List.find?, hb]
          rw [if_neg hkk]
        · have hb : (k0 == k2) = false := by
            rw [beq_eq_false_iff_ne]; exact Ne.symm h
          simp only [jsGetProp, List.find?, hb] at ih ⊢
          exact ih

/-! ## Claim theorems -/

/-- C5 (confirmed): for every snapshot, `computeConsistencyScore` equals
the unweighted arithmetic mean of the four sub-scores, and the score lies
in the closed interval [0,1]. -/
theorem consistencyScore_bounds_mean (cd : ContextData) :
    computeConsistencyScore cd =
      (evaluateLocationConsistency cd.location + evaluateTemporalConsistency cd
        + evaluateMotionConsistency cd.motion_signature
        + evaluateNetworkConsistency cd.wifi_fingerprint) / 4
    ∧ 0 ≤ computeConsistencyScore cd ∧ computeConsistencyScore cd ≤ 1 := by
  refine ⟨rfl, ?_, ?_⟩ <;>
  · unfold computeConsistencyScore evaluateMotionConsistency evaluateNetworkConsistency
    rcases evaluateLocationConsistency_cases cd.location with h1 | h1 <;>
      rcases evaluateTemporalConsistency_cases cd with h2 | h2 <;>
        rw [h1, h2] <;> norm_num

/-- C9 (confirmed): every snapshot actually produced by
`collectContextData` has temporal sub-score 1/2 (the location reading
carries no timestamp, so the `Math.max` comparison against `NaN` fails),
motion and network sub-scores 1, location sub-score decided by the
accuracy test, hence total score 7/8 or 3/4 — always at least the 0.7
usability threshold, so a below-threshold outcome is unreachable from
local scoring alone. -/
theorem collected_snapshot_score_values (p : GeoPosition) (tWifi tMotion tPos tNow : Int) :
    evaluateTemporalConsistency (collectContextData p tWifi tMotion tPos tNow) = 1/2
    ∧ evaluateMotionConsistency (collectContextData p tWifi tMotion tPos tNow).motion_signature = 1
    ∧ evaluateNetworkConsistency (collectContextData p tWifi tMotion tPos tNow).wifi_fingerprint = 1
    ∧ (computeConsistencyScore (collectContextData p tWifi tMotion tPos tNow) = 7/8
        ∨ computeConsistencyScore (collectContextData p tWifi tMotion tPos tNow) = 3/4)
    ∧ consistencyThreshold ≤ computeConsistencyScore (collectContextData p tWifi tMotion tPos tNow) := by
  have hscore : computeConsistencyScore (collectContextData p tWifi tMotion tPos tNow)
      = ((if p.accuracy ≤ 20 then (1 : ℚ) else 1/2) + 1/2 + 1 + 1) / 4 := rfl
  refine ⟨rfl, rfl, rfl, ?_, ?_⟩
  · rw [hscore]
    by_cases h : p.accuracy ≤ 20
    · left; rw [if_pos h]; norm_num
    · right; rw [if_neg h]; norm_num
  · rw [hscore]
    by_cases h : p.accuracy ≤ 20
    · rw [if_pos h]; norm_num [consistencyThreshold]
    · rw [if_neg h]; norm_num [consistencyThreshold]

/-- C3 (confirmed): threshold gating in the content script.  The
verification step makes a token active (and emits the `active` status
event) exactly when the response succeeded, carries a token, and that
token's consistency score is at least `consistencyThreshold` (0.7); in
particular a score of exactly 0.7 is accepted and 0.699 is rejected. -/
theorem threshold_gating :
    (∀ (r : Except String VCResponse) (s : CSState),
      (verifyContext r s).1.activeToken ≠ none ↔
        (∃ resp token, r = Except.ok resp ∧ resp.success = true ∧ resp.token = some token
          ∧ consistencyThreshold ≤ token.consistencyScore))
    ∧ (∀ (r : Except String VCResponse) (s : CSState),
      (∃ q, PageEvent.statusChanged "active" q ∈ (verifyContext r s).2) ↔
        (∃ resp token, r = Except.ok resp ∧ resp.success = true ∧ resp.token = some token
          ∧ consistencyThreshold ≤ token.consistencyScore))
    ∧ (verifyContext (Except.ok ⟨true, some ⟨some "tok", 7/10⟩, none⟩) ⟨none, true⟩).1.activeToken
        = some ⟨some "tok", 7/10⟩
    ∧ (verifyContext (Except.ok ⟨true, some ⟨some "tok", 699/1000⟩, none⟩) ⟨none, true⟩).1.activeToken
        = none := by
  refine ⟨?_, ?_, ?_, ?_⟩
  · intro r s
    constructor
    · intro hne
      rcases r with e | resp
      · exact absurd (handleVerificationFailure_shape 0 s).1 hne
      · obtain ⟨succ, tok, err⟩ := resp
        rcases tok with _ | token
        · exact absurd (handleVerificationFailure_shape 0 s).1 hne
        · by_cases hc : succ = true ∧ consistencyThreshold ≤ token.consistencyScore
          · exact ⟨⟨succ, some token, err⟩, token, rfl, hc.1, rfl, hc.2⟩
          · exact absurd ((by simp [verifyContext, hc, handleVerificationFailure] :
              (verifyContext (Except.ok ⟨succ, some token, err⟩) s).1.activeToken = none)) hne
    · rintro ⟨resp, token, rfl, hsucc, htok, hthr⟩
      obtain ⟨succ, tok, err⟩ := resp
      simp only at hsucc htok
      subst hsucc; subst htok
      simp [verifyContext, hthr]
  · intro r s
    constructor
    · intro hev
      rcases r with e | resp
      · rw [show verifyContext (Except.error e) s = handleVerificationFailure 0 s from rfl,
            (handleVerificationFailure_shape 0 s).2] at hev
        simp at hev
      · obtain ⟨succ, tok, err⟩ := resp
        rcases tok with _ | token
        · rw [show verifyContext (Except.ok ⟨succ, none, err⟩) s
                = handleVerificationFailure 0 s from rfl,
              (handleVerificationFailure_shape 0 s).2] at hev
          simp at hev
        · by_cases hc : succ = true ∧ consistencyThreshold ≤ token.consistencyScore
          · exact ⟨⟨succ, some token, err⟩, token, rfl, hc.1, rfl, hc.2⟩
          · have hfail : (verifyContext (Except.ok ⟨succ, some token, err⟩) s).2 =
                (handleVerificationFailure token.consistencyScore s).2 := by
              simp [verifyContext, hc]
            rw [hfail, (handleVerificationFailure_shape token.consistencyScore s).2] at hev
            simp at hev
    · rintro ⟨resp, token, rfl, hsucc, htok, hthr⟩
      obtain ⟨succ, tok, err⟩ := resp
      simp only at hsucc htok
      subst hsucc; subst htok
      exact ⟨token.consistencyScore, by simp [verifyContext, hthr]⟩
  · norm_num [verifyContext, consistencyThreshold]
  · norm_num [verifyContext, consistencyThreshold, handleVerificationFailure]

/-- C6 (code bug witnessed): the content script does not discard an
in-flight verification that resolves after `stop`.  Starting, stopping,
and then letting the outstanding VERIFY_CONTEXT reply resolve with a
usable token leaves `activeToken` set and emits an `active` status event
after the `inactive` one — the Active state is resurrected. -/
theorem stop_inflight_resurrects_active :
    runTrace ⟨none, false⟩
      [CSAction.navStart, CSAction.navStop,
       CSAction.resolve (Except.ok ⟨true, some ⟨some "tok", 1⟩, none⟩)]
    = (⟨some ⟨some "tok", 1⟩, false⟩,
       [PageEvent.statusChanged "inactive" 0,
        PageEvent.tokenInjected ⟨some "tok", 1⟩,
        PageEvent.statusChanged "active" 1]) := by
  norm_num [runTrace, csStep, startContextVerification, stopContextVerification,
    verifyContext, handleVerificationFailure, consistencyThreshold]

/-- C7 counterexample: a failure whose cause is an insufficient score of
exactly 0 (for instance the degraded unsupported-site token, whose score
0 is below the 0.7 threshold) is reported with the very same reason
string, `Verification error`, that a transport failure produces — the
two causes are not distinguishable from the emitted reason. -/
theorem failure_reason_conflation_cex :
    (verifyContext (Except.ok ⟨true, some ⟨none, 0⟩, none⟩) ⟨none, true⟩).2
      = [PageEvent.verificationFailed "Verification error" 0]
    ∧ (verifyContext (Except.error "Failed to fetch") ⟨none, true⟩).2
      = [PageEvent.verificationFailed "Verification error" 0]
    ∧ (0 : ℚ) < consistencyThreshold := by
  refine ⟨?_, ?_, by norm_num [consistencyThreshold]⟩ <;>
    norm_num [verifyContext, handleVerificationFailure, consistencyThreshold]

/-- C7 (amended): a failing verification whose response carries a token
with a nonzero below-threshold score is reported with reason
`Insufficient consistency score`, which differs from the
`Verification error` reason that transport errors produce; only the
below-threshold score of exactly 0 is conflated with transport failure
(see the counterexample). -/
theorem failure_reason_nonzero_distinct (resp : VCResponse) (s : CSState) (t : TokenMsg)
    (htok : resp.token = some t) (hnz : t.consistencyScore ≠ 0)
    (hlt : t.consistencyScore < consistencyThreshold) :
    (verifyContext (Except.ok resp) s).2
      = [PageEvent.verificationFailed "Insufficient consistency score" t.consistencyScore]
    ∧ "Insufficient consistency score" ≠ "Verification error"
    ∧ (∀ (e : String) (s2 : CSState), (verifyContext (Except.error e) s2).2
        = [PageEvent.verificationFailed "Verification error" 0]) := by
  refine ⟨?_, by decide, fun e s2 => by norm_num [verifyContext, handleVerificationFailure]⟩
  obtain ⟨succ, tok, err⟩ := resp
  simp only at htok
  subst htok
  have hc : ¬ (succ = true ∧ consistencyThreshold ≤ t.consistencyScore) :=
    fun h => absurd h.2 (not_le.mpr hlt)
  simp [verifyContext, hc, handleVerificationFailure, hnz]

/-- C7 witness: the amended statement applied to a concrete response
carrying score 1/2. -/
theorem failure_reason_witness :
    (verifyContext (Except.ok ⟨true, some ⟨some "tok", 1/2⟩, none⟩) ⟨none, true⟩).2
      = [PageEvent.verificationFailed "Insufficient consistency score" (1/2)] := by
  have h := (failure_reason_nonzero_distinct ⟨true, some ⟨some "tok", 1/2⟩, none⟩ ⟨none, true⟩
    ⟨some "tok", 1/2⟩ rfl (by norm_num) (by norm_num [consistencyThreshold])).1
  simpa using h

/-- C1 counterexample: when no device key pair is initialized,
`requestZKPToken` throws before the site is resolved, so even for a
siteUrl matching no SiteConfig entry the VERIFY_CONTEXT response is a
failure carrying the key-pair error — not the degraded null-token
success the claim promises for every such siteUrl. -/
theorem unsupportedSite_requires_keypair_cex :
    getApiEndpoint "https://example.com/page" = none
    ∧ handleVerifyContext none (fun _ => ⟨false, ⟨none, 0⟩⟩) "https://example.com/page"
        (Except.ok ("hash", 1))
      = ⟨false, none, some "Device key pair not initialized"⟩ := by
  constructor <;> decide

/-- C1 (amended): provided the device key pair is initialized and
collection succeeded, a token request for a siteUrl matching no
SiteConfig entry throws `Unsupported shopping site` inside
`requestZKPToken`, and the VERIFY_CONTEXT handler converts exactly that
error into the degraded success `{success: true, token: {token: null,
consistencyScore: 0}}`; without a key pair the request fails instead
(see the counterexample). -/
theorem unsupportedSite_degraded_success (kp : DeviceKeyPair)
    (fetchReply : String → FetchReply) (siteUrl contextHash : String) (score : ℚ)
    (h : getApiEndpoint siteUrl = none) :
    requestZKPToken (some kp) fetchReply contextHash score siteUrl
      = Except.error "Unsupported shopping site"
    ∧ handleVerifyContext (some kp) fetchReply siteUrl (Except.ok (contextHash, score))
      = ⟨true, some ⟨none, 0⟩, none⟩ := by
  have hreq : requestZKPToken (some kp) fetchReply contextHash score siteUrl
      = Except.error "Unsupported shopping site" := by
    unfold requestZKPToken
    rw [h]
  refine ⟨hreq, ?_⟩
  simp [handleVerifyContext, hreq]

/-- C1 witness: the amended statement at a concrete unsupported URL. -/
theorem unsupportedSite_degraded_success_witness :
    handleVerifyContext (some ⟨"pub", "priv"⟩) (fun _ => ⟨false, ⟨none, 0⟩⟩)
        "https://example.com/page" (Except.ok ("hash", 1))
      = ⟨true, some ⟨none, 0⟩, none⟩ :=
  (unsupportedSite_degraded_success ⟨"pub", "priv"⟩ (fun _ => ⟨false, ⟨none, 0⟩⟩)
    "https://example.com/page" "hash" 1 (by decide)).2

/-- C10 (confirmed): with no device key pair, `requestZKPToken` fails
with `Device key pair not initialized` before the site is resolved, so
the VERIFY_CONTEXT response is `{success: false, error}` even when the
siteUrl matches no SiteConfig entry — the degraded null-token success is
only produced when a key pair exists. -/
theorem keyless_request_fails (fetchReply : String → FetchReply)
    (siteUrl contextHash : String) (score : ℚ)
    (_h : getApiEndpoint siteUrl = none) :
    requestZKPToken none fetchReply contextHash score siteUrl
      = Except.error "Device key pair not initialized"
    ∧ handleVerifyContext none fetchReply siteUrl (Except.ok (contextHash, score))
      = ⟨false, none, some "Device key pair not initialized"⟩ := by
  constructor
  · rfl
  · rfl

/-- C10 witness: the statement at a concrete unsupported URL. -/
theorem keyless_request_fails_witness :
    handleVerifyContext none (fun _ => ⟨true, ⟨some "t", 1⟩⟩) "https://news.example.org/a"
        (Except.ok ("hash", 1))
      = ⟨false, none, some "Device key pair not initialized"⟩ :=
  (keyless_request_fails (fun _ => ⟨true, ⟨some "t", 1⟩⟩) "https://news.example.org/a"
    "hash" 1 (by decide)).2

/-- C2 counterexample: `generateContextHash` does not canonicalize field
order.  Two context objects with exactly the same fields (a permutation
of one another) but different insertion orders serialize differently
under `JSON.stringify` and produce different SHA-256 digests. -/
theorem contextHash_field_order_cex :
    ([("location", Json.jobj [("lat", Json.jnum 37), ("lng", Json.jnum (-122)),
        ("accuracy", Json.jnum 10)]),
      ("timestamp", Json.jnum 1700000000000)].Perm
     [("timestamp", Json.jnum 1700000000000),
      ("location", Json.jobj [("lat", Json.jnum 37), ("lng", Json.jnum (-122)),
        ("accuracy", Json.jnum 10)])])
    ∧ generateContextHash (Json.jobj
        [("location", Json.jobj [("lat", Json.jnum 37), ("lng", Json.jnum (-122)),
           ("accuracy", Json.jnum 10)]),
         ("timestamp", Json.jnum 1700000000000)])
      ≠ generateContextHash (Json.jobj
        [("timestamp", Json.jnum 1700000000000),
         ("location", Json.jobj [("lat", Json.jnum 37), ("lng", Json.jnum (-122)),
           ("accuracy", Json.jnum 10)])]) := by
  constructor
  · exact List.Perm.swap _ _ []
  · set_option maxRecDepth 8000 in decide

/-- C2 (amended): the context hash is deterministic as a function of the
serialized snapshot: any two context objects with the same
`JSON.stringify` serialization — in particular, identical field values
in identical insertion order — produce identical digests.  The code does
not canonicalize field order, so equal-valued snapshots built in
different orders may hash differently (see the counterexample). -/
theorem contextHash_deterministic_over_serialization (a b : Json)
    (h : Json.stringify a = Json.stringify b) :
    generateContextHash a = generateContextHash b := by
  unfold generateContextHash
  rw [h]

/-- C2 witness: the amended statement at a concrete snapshot. -/
theorem contextHash_deterministic_witness :
    generateContextHash (Json.jobj [("timestamp", Json.jnum 0)])
      = generateContextHash (Json.jobj [("timestamp", Json.jnum 0)]) :=
  contextHash_deterministic_over_serialization
    (Json.jobj [("timestamp", Json.jnum 0)]) (Json.jobj [("timestamp", Json.jnum 0)]) rfl

/-- C4 counterexample: `evaluateTemporalConsistency` does not read the
POS-terminal reading's timestamp.  A snapshot whose POS-terminal reading
is 1,000,000 ms away from every other reading still gets temporal
sub-score 1, although the spread across ALL readings is far above the
5000 ms bound the claim states. -/
theorem temporalConsistency_pos_excluded_cex :
    evaluateTemporalConsistency
      { location := { lat := 0, lng := 0, accuracy := 10, timestamp := some 0 },
        wifi_fingerprint := { nearby_networks := [], connection_strength := 0, timestamp := 0 },
        motion_signature := { acceleration := (0, 0, 0), rotation := (0, 0, 0), timestamp := 0 },
        pos_terminal := { terminal_id := none, signal_strength := 0, timestamp := 1000000 },
        timestamp := 0 } = 1
    ∧ ¬ (specAllReadingsSpread
      { location := { lat := 0, lng := 0, accuracy := 10, timestamp := some 0 },
        wifi_fingerprint := { nearby_networks := [], connection_strength := 0, timestamp := 0 },
        motion_signature := { acceleration := (0, 0, 0), rotation := (0, 0, 0), timestamp := 0 },
        pos_terminal := { terminal_id := none, signal_strength := 0, timestamp := 1000000 },
        timestamp := 0 } < 5000) := by
  constructor
  · norm_num [evaluateTemporalConsistency, listMax, listMin]
  · norm_num [specAllReadingsSpread, listMax, listMin]

/-- C4 (amended): the temporal sub-score is 1 exactly when the spread of
the four timestamps the code actually reads — the snapshot timestamp and
the location, Wi-Fi and motion reading timestamps — is below 5000 ms
(and 1/2 otherwise); the POS-terminal timestamp is not consulted.  The
first part of the claim stands: when the location accuracy is at most 20
and ALL reading timestamps (POS terminal included) lie within 5000 ms of
each other, all four sub-scores are 1 and the aggregate score is 1. -/
theorem temporalConsistency_characterization (cd : ContextData) (lts : Int)
    (h : cd.location.timestamp = some lts) :
    (evaluateTemporalConsistency cd = 1 ↔
      listMax [cd.timestamp, lts, cd.wifi_fingerprint.timestamp, cd.motion_signature.timestamp]
        - listMin [cd.timestamp, lts, cd.wifi_fingerprint.timestamp,
            cd.motion_signature.timestamp] < 5000)
    ∧ (¬ (listMax [cd.timestamp, lts, cd.wifi_fingerprint.timestamp,
            cd.motion_signature.timestamp]
          - listMin [cd.timestamp, lts, cd.wifi_fingerprint.timestamp,
            cd.motion_signature.timestamp] < 5000) →
        evaluateTemporalConsistency cd = 1/2)
    ∧ (cd.location.accuracy ≤ 20 →
        (∀ t ∈ [cd.timestamp, lts, cd.wifi_fingerprint.timestamp,
            cd.motion_signature.timestamp, cd.pos_terminal.timestamp],
         ∀ u ∈ [cd.timestamp, lts, cd.wifi_fingerprint.timestamp,
            cd.motion_signature.timestamp, cd.pos_terminal.timestamp], t - u < 5000) →
        evaluateLocationConsistency cd.location = 1
        ∧ evaluateTemporalConsistency cd = 1
        ∧ evaluateMotionConsistency cd.motion_signature = 1
        ∧ evaluateNetworkConsistency cd.wifi_fingerprint = 1
        ∧ computeConsistencyScore cd = 1) := by
  have heq : evaluateTemporalConsistency cd
      = (if listMax [cd.timestamp, lts, cd.wifi_fingerprint.timestamp,
            cd.motion_signature.timestamp]
          - listMin [cd.timestamp, lts, cd.wifi_fingerprint.timestamp,
            cd.motion_signature.timestamp] < 5000 then (1 : ℚ) else 1/2) := by
    unfold evaluateTemporalConsistency
    rw [h]
  refine ⟨?_, ?_, ?_⟩
  · rw [heq]
    by_cases hc : listMax [cd.timestamp, lts, cd.wifi_fingerprint.timestamp,
        cd.motion_signature.timestamp]
      - listMin [cd.timestamp, lts, cd.wifi_fingerprint.timestamp,
        cd.motion_signature.timestamp] < 5000
    · simp [hc]
    · rw [if_neg hc]
      constructor
      · intro habs; norm_num at habs
      · intro habs; exact absurd habs hc
  · intro hnot
    rw [heq, if_neg hnot]
  · intro hacc hwithin
    have hmaxmem : listMax [cd.timestamp, lts, cd.wifi_fingerprint.timestamp,
        cd.motion_signature.timestamp]
        ∈ ([cd.timestamp, lts, cd.wifi_fingerprint.timestamp,
            cd.motion_signature.timestamp, cd.pos_terminal.timestamp] : List Int) := by
      rcases listMax4_choice cd.timestamp lts cd.wifi_fingerprint.timestamp
          cd.motion_signature.timestamp with h1 | h1 | h1 | h1 <;> rw [h1] <;> simp
    have hminmem : listMin [cd.timestamp, lts, cd.wifi_fingerprint.timestamp,
        cd.motion_signature.timestamp]
        ∈ ([cd.timestamp, lts, cd.wifi_fingerprint.timestamp,
            cd.motion_signature.timestamp, cd.pos_terminal.timestamp] : List Int) := by
      rcases listMin4_choice cd.timestamp lts cd.wifi_fingerprint.timestamp
          cd.motion_signature.timestamp with h1 | h1 | h1 | h1 <;> rw [h1] <;> simp
    have hspread := hwithin _ hmaxmem _ hminmem
    have hloc : evaluateLocationConsistency cd.location = 1 := by
      unfold evaluateLocationConsistency
      rw [if_pos hacc]
    have htemp : evaluateTemporalConsistency cd = 1 := by
      rw [heq, if_pos hspread]
    refine ⟨hloc, htemp, rfl, rfl, ?_⟩
    unfold computeConsistencyScore evaluateMotionConsistency evaluateNetworkConsistency
    rw [hloc, htemp]
    norm_num

/-- C4 witness: the amended characterization applied to a snapshot whose
readings all carry timestamp 0. -/
theorem temporalConsistency_witness :
    evaluateTemporalConsistency
      { location := { lat := 0, lng := 0, accuracy := 10, timestamp := some 0 },
        wifi_fingerprint := { nearby_networks := [], connection_strength := 0, timestamp := 0 },
        motion_signature := { acceleration := (0, 0, 0), rotation := (0, 0, 0), timestamp := 0 },
        pos_terminal := { terminal_id := none, signal_strength := 0, timestamp := 0 },
        timestamp := 0 } = 1 :=
  (temporalConsistency_characterization
    { location := { lat := 0, lng := 0, accuracy := 10, timestamp := some 0 },
      wifi_fingerprint := { nearby_networks := [], connection_strength := 0, timestamp := 0 },
      motion_signature := { acceleration := (0, 0, 0), rotation := (0, 0, 0), timestamp := 0 },
      pos_terminal := { terminal_id := none, signal_strength := 0, timestamp := 0 },
      timestamp := 0 } 0 rfl).1.mpr (by norm_num [listMax, listMin])

/-- C8 counterexample: the fetch wrapper does not leave the call's
arguments unmodified when no token is active.  On a supported site, for
a URL containing the site's apiPattern, a call made with no second
argument comes out with a materialized init object carrying an empty
headers object. -/
theorem fetchWrapper_normalizes_args_cex :
    fetchWrapper "www.walmart.com" none
        ⟨"https://api.walmart.com/secure-context/orders", none⟩
      ≠ ⟨"https://api.walmart.com/secure-context/orders", none⟩
    ∧ fetchWrapper "www.walmart.com" none
        ⟨"https://api.walmart.com/secure-context/orders", none⟩
      = ⟨"https://api.walmart.com/secure-context/orders", some ⟨some []⟩⟩ := by
  constructor <;> decide

/-- C8 (amended): when the current site matches and the URL contains its
apiPattern, an active token makes the wrapper attach exactly the three
attestation headers (token, consistency score, site identifier), leaving
every other header as it was; with no active token no header is added
and the existing headers are returned unchanged (though the init
argument itself is normalized — see the counterexample); and a URL that
contains no supported site's apiPattern never gains any header: the
arguments pass through untouched. -/
theorem fetchWrapper_headers_spec (hostname : String) (t : TokenMsg)
    (tok : Option TokenMsg) (args : FetchArgs) (site : String × SiteCfg) :
    (getCurrentSite hostname = some site → jsIncludes args.url site.2.apiPattern = true →
      ∀ k, jsGetProp (headersOf (fetchWrapper hostname (some t) args)) k =
        if k = "X-Shopping-Site" then some (some site.1)
        else if k = "X-Context-Consistency-Score" then some (some (toString t.consistencyScore))
        else if k = "X-Secure-Context-Token" then some t.token
        else jsGetProp (headersOf args) k)
    ∧ (getCurrentSite hostname = some site → jsIncludes args.url site.2.apiPattern = true →
        headersOf (fetchWrapper hostname none args) = headersOf args)
    ∧ ((∀ s2 ∈ SUPPORTED_SITES, jsIncludes args.url s2.2.apiPattern = false) →
        fetchWrapper hostname tok args = args) := by
  refine ⟨?_, ?_, ?_⟩
  · intro h1 h2 k
    unfold fetchWrapper
    rw [h1]
    simp only [h2, if_true]
    simp only [headersOf, Option.getD]
    rw [jsGetProp_jsSetProp, jsGetProp_jsSetProp, jsGetProp_jsSetProp]
  · intro h1 h2
    unfold fetchWrapper
    rw [h1]
    simp only [h2, if_true]
    simp [headersOf]
  · intro hall
    unfold fetchWrapper
    cases hcs : getCurrentSite hostname with
    | none => rfl
    | some site2 =>
        have hmem : site2 ∈ SUPPORTED_SITES := by
          unfold getCurrentSite at hcs
          exact List.mem_of_find?_eq_some hcs
        simp [hall site2 hmem]

/-- C8 witness: on walmart.com with an active token, the request to the
secure-context API gains the site-identifier header. -/
theorem fetchWrapper_headers_witness :
    jsGetProp (headersOf (fetchWrapper "www.walmart.com" (some ⟨some "tok", 1⟩)
        ⟨"https://api.walmart.com/secure-context/orders", none⟩)) "X-Shopping-Site"
      = some (some "walmart.com") := by
  have h := (fetchWrapper_headers_spec "www.walmart.com" ⟨some "tok", 1⟩ none
    ⟨"https://api.walmart.com/secure-context/orders", none⟩
    ("walmart.com", ⟨"api.walmart.com", "/store/"⟩)).1 (by decide) (by decide) "X-Shopping-Site"
  simpa using h
